import Mathlib

/-!  Verification of the MesaGrid frontend core: the zustand connection store
(`src/stores/connection-store.ts`), the Tauri command surface (`src/lib/api.ts`),
the connection dialog handlers and the query editor run path.  Backend commands
that live behind the Tauri boundary (Rust side) are not part of the repository
files; where a property depends on them they are modelled from the spec, and
each such definition says so in its doc comment.  -/

namespace MesaGrid

/-- The `DatabaseType` union from `stores/connection-store.ts`. -/
inductive DatabaseType where
  | postgres
  | mysql
deriving DecidableEq

/-- The `theme` union `"light" | "dark" | "system"` of the store. -/
inductive Theme where
  | light
  | dark
  | system
deriving DecidableEq

/-- The `Connection` interface from `stores/connection-store.ts`.  The source
comment at the password position reads: password is stored in the OS keychain,
not here — accordingly the record has no password field. -/
structure Connection where
  id : String
  name : String
  type : DatabaseType
  host : String
  port : Nat
  database : String
  username : String
  isConnected : Bool
  lastConnected : Option String := none
deriving DecidableEq

/-- The `ColumnInfo` interface. -/
structure ColumnInfo where
  name : String
  dataType : String
  nullable : Bool
deriving DecidableEq

/-- One result row, `Record<string, unknown>`: a mapping from column name to a
cell value.  Cell values are opaque to every property proved here, so they are
carried as strings. -/
abbrev Row := List (String × String)

/-- The `QueryResult` interface. -/
structure QueryResult where
  columns : List ColumnInfo
  rows : List Row
  rowCount : Nat
  executionTimeMs : Nat
deriving DecidableEq

/-- The `QueryTab` interface. -/
structure QueryTab where
  id : String
  connectionId : String
  title : String
  sql : String
  results : Option QueryResult := none
  isRunning : Bool
deriving DecidableEq

/-- The `TableInfo` interface (`type` field is the `"table" | "view"` union). -/
inductive TableKind where
  | table
  | view
deriving DecidableEq

/-- The `TableInfo` interface from the store. -/
structure TableInfo where
  name : String
  schema : String
  type : TableKind
  rowCount : Option Nat := none
deriving DecidableEq

/-- The state slice of the `ConnectionStore` interface (the zustand store
fields; the actions are the functions below). -/
structure ConnectionStore where
  connections : List Connection
  activeConnectionId : Option String
  queryTabs : List QueryTab
  activeTabId : Option String
  tables : List TableInfo
  sidebarWidth : Nat
  theme : Theme
deriving DecidableEq

/-- `Partial<Connection>` as used by `updateConnection`: a field set to `none`
is absent from the update object. -/
structure ConnectionUpdates where
  id : Option String := none
  name : Option String := none
  type : Option DatabaseType := none
  host : Option String := none
  port : Option Nat := none
  database : Option String := none
  username : Option String := none
  isConnected : Option Bool := none
  lastConnected : Option (Option String) := none
deriving DecidableEq

/-- The spread `{ ...c, ...updates }` for a connection. -/
def applyConnectionUpdates (c : Connection) (u : ConnectionUpdates) : Connection :=
  { id := u.id.getD c.id
    name := u.name.getD c.name
    type := u.type.getD c.type
    host := u.host.getD c.host
    port := u.port.getD c.port
    database := u.database.getD c.database
    username := u.username.getD c.username
    isConnected := u.isConnected.getD c.isConnected
    lastConnected := u.lastConnected.getD c.lastConnected }

/-- `Partial<QueryTab>` as used by `updateQueryTab`. -/
structure QueryTabUpdates where
  id : Option String := none
  connectionId : Option String := none
  title : Option String := none
  sql : Option String := none
  results : Option (Option QueryResult) := none
  isRunning : Option Bool := none
deriving DecidableEq

/-- The spread `{ ...t, ...updates }` for a query tab. -/
def applyQueryTabUpdates (t : QueryTab) (u : QueryTabUpdates) : QueryTab :=
  { id := u.id.getD t.id
    connectionId := u.connectionId.getD t.connectionId
    title := u.title.getD t.title
    sql := u.sql.getD t.sql
    results := u.results.getD t.results
    isRunning := u.isRunning.getD t.isRunning }

/-- Store action `addConnection`. -/
def addConnection (connection : Connection) (s : ConnectionStore) : ConnectionStore :=
  { s with connections := s.connections ++ [connection] }

/-- Store action `updateConnection`: maps over the list replacing the entry
whose id matches by the spread of the updates. -/
def updateConnection (id : String) (u : ConnectionUpdates) (s : ConnectionStore) :
    ConnectionStore :=
  { s with connections :=
      s.connections.map (fun c => if c.id = id then applyConnectionUpdates c u else c) }

/-- Store action `removeConnection`: filters the connection out, resets the
active connection when it was the removed one, and drops the removed
connection's query tabs. -/
def removeConnection (id : String) (s : ConnectionStore) : ConnectionStore :=
  { s with
    connections := s.connections.filter (fun c => c.id != id)
    activeConnectionId :=
      if s.activeConnectionId = some id then none else s.activeConnectionId
    queryTabs := s.queryTabs.filter (fun t => t.connectionId != id) }

/-- Store action `setActiveConnection`. -/
def setActiveConnection (id : Option String) (s : ConnectionStore) : ConnectionStore :=
  { s with activeConnectionId := id, tables := [] }

/-- Store action `addQueryTab`.  `newTabId` stands for the fresh
`crypto.randomUUID()` the source generates. -/
def addQueryTab (connectionId newTabId : String) (s : ConnectionStore) : ConnectionStore :=
  let tabCount := (s.queryTabs.filter (fun t => t.connectionId == connectionId)).length
  { s with
    queryTabs := s.queryTabs ++
      [{ id := newTabId
         connectionId := connectionId
         title := "Query " ++ toString (tabCount + 1)
         sql := ""
         results := none
         isRunning := false }]
    activeTabId := some newTabId }

/-- Store action `updateQueryTab`. -/
def updateQueryTab (id : String) (u : QueryTabUpdates) (s : ConnectionStore) :
    ConnectionStore :=
  { s with queryTabs :=
      s.queryTabs.map (fun t => if t.id = id then applyQueryTabUpdates t u else t) }

/-- Store action `removeQueryTab`: filters out the tab; when the removed tab
was active, the last remaining tab (or null) becomes active. -/
def removeQueryTab (id : String) (s : ConnectionStore) : ConnectionStore :=
  let tabs := s.queryTabs.filter (fun t => t.id != id)
  let wasActive := s.activeTabId = some id
  { s with
    queryTabs := tabs
    activeTabId := if wasActive then tabs.getLast?.map QueryTab.id else s.activeTabId }

/-- Store action `setActiveTab`. -/
def setActiveTab (id : Option String) (s : ConnectionStore) : ConnectionStore :=
  { s with activeTabId := id }

/-! ## Persistence (the `persist` middleware's `partialize`) -/

/-- The object shape `partialize` returns: the persisted projection of the
store under the persist middleware (name `mesagrid-storage`). -/
structure PersistedState where
  connections : List Connection
  sidebarWidth : Nat
  theme : Theme
deriving DecidableEq

/-- `partialize` from `stores/connection-store.ts`: maps each connection to
`{ ...c, isConnected: false }` and keeps `sidebarWidth` and `theme`. -/
def partialize (s : ConnectionStore) : PersistedState :=
  { connections := s.connections.map (fun c => { c with isConnected := false })
    sidebarWidth := s.sidebarWidth
    theme := s.theme }

/-- The connection fields claim C1 (and spec §6) allow in a persisted entry:
id, name, engine type, host, port, database, username.  Stated from the
claim's words, for comparison against what `partialize` actually persists. -/
structure ClaimPersistedConnection where
  id : String
  name : String
  type : DatabaseType
  host : String
  port : Nat
  database : String
  username : String
deriving DecidableEq

/-- The projection of a connection onto the fields the claim lists. -/
def restrictToClaimFields (c : Connection) : ClaimPersistedConnection :=
  { id := c.id, name := c.name, type := c.type, host := c.host,
    port := c.port, database := c.database, username := c.username }

/-! ## The command surface (`lib/api.ts`) -/

/-- `CreateConnectionParams` from `lib/api.ts`. -/
structure CreateConnectionParams where
  name : String
  type : DatabaseType
  host : String
  port : Nat
  database : String
  username : String
  password : String
deriving DecidableEq

/-- `ExecuteQueryParams` from `lib/api.ts`: `limit` and `offset` are optional,
and there is no further field. -/
structure ExecuteQueryParams where
  connectionId : String
  sql : String
  limit : Option Nat := none
  offset : Option Nat := none
deriving DecidableEq

/-- `GetTableDataParams` from `lib/api.ts`: the pagination position is the
optional numeric `offset`, and there is no further field. -/
structure GetTableDataParams where
  connectionId : String
  tableName : String
  schema : Option String := none
  limit : Option Nat := none
  offset : Option Nat := none
deriving DecidableEq

/-- `TableDataResult` from `lib/api.ts`. -/
structure TableDataResult where
  columns : List ColumnInfo
  rows : List Row
  totalCount : Nat
  hasMore : Bool
deriving DecidableEq

/-- Key of an optional field in the serialized invoke payload: a TS optional
field that is undefined is absent from the JSON object. -/
def optionalKey (k : String) (present : Bool) : List String :=
  if present then [k] else []

/-- The keys of the JSON object `executeQuery` passes as `params` to
`invoke("execute_query", { params })`: exactly the fields of
`ExecuteQueryParams`. -/
def executeQueryKeys (p : ExecuteQueryParams) : List String :=
  ["connectionId", "sql"] ++
    optionalKey "limit" p.limit.isSome ++ optionalKey "offset" p.offset.isSome

/-- The keys of the JSON object `getTableData` passes as `params` to
`invoke("get_table_data", { params })`: exactly the fields of
`GetTableDataParams`. -/
def getTableDataKeys (p : GetTableDataParams) : List String :=
  ["connectionId", "tableName"] ++ optionalKey "schema" p.schema.isSome ++
    optionalKey "limit" p.limit.isSome ++ optionalKey "offset" p.offset.isSome

/-! ## Query editor run path (`components/query-editor/query-editor.tsx`) -/

/-- JavaScript `a || b` on strings: the empty string is falsy. -/
def jsOrString (a b : String) : String := if a = "" then b else a

/-- JavaScript `String.prototype.trim`: drop whitespace from both ends. -/
def jsTrim (s : String) : String :=
  ⟨((s.data.dropWhile Char.isWhitespace).reverse.dropWhile Char.isWhitespace).reverse⟩

/-- JavaScript `a || b` where `a` is an optional string (undefined or a
string): undefined and the empty string both fall through to `b`. -/
def jsOrOpt (a : Option String) (b : String) : String :=
  match a with
  | some s => jsOrString s b
  | none => b

/-- The inputs `handleRunQuery` reads: the active tab and connection, the
component's `isRunning` flag, and the Monaco model text
(`editorRef.current?.getModel()?.getValue()`, `none` when that optional chain
is undefined). -/
structure RunQueryInput where
  activeTab : Option QueryTab
  activeConnection : Option Connection
  isRunning : Bool
  editorValue : Option String
deriving DecidableEq

/-- The `executeQuery` parameters `handleRunQuery` submits, `none` when the
handler returns without calling the API (no tab or connection, already
running, or blank SQL).  The submitted limit is the literal 100 and the
offset the literal 0. -/
def handleRunQueryParams (i : RunQueryInput) : Option ExecuteQueryParams :=
  match i.activeTab, i.activeConnection with
  | some tab, some conn =>
    if i.isRunning then none
    else
      let sql := match i.editorValue with
        | some v => jsOrString v tab.sql
        | none => tab.sql
      if jsTrim sql = "" then none
      else some { connectionId := conn.id, sql := sql, limit := some 100, offset := some 0 }
  | _, _ => none

/-! ## Backend behaviours modelled from the spec

The Rust side of the Tauri commands is not among the repository's files;
the definitions in this section are therefore modelled from the spec, as
their doc comments state, and every claim settled against them says so. -/

/-- Modelled from the spec: the default row bound of the Query Executor
(§4.5: stream rows up to the row limit, default bound, e.g. 100, always
enforced even if the caller omits a limit).  The backend `execute_query`
implementation is not under src/. -/
def defaultRowLimit : Nat := 100

/-- The row limit the executor enforces for a request: the caller's limit,
or `defaultRowLimit` when the caller omitted one. -/
def effectiveLimit (limit : Option Nat) : Nat := limit.getD defaultRowLimit

/-- Modelled from the spec: the row window the Query Executor streams back
for a statement whose full result is `tableRows` (§4.5, §8: `executeQuery`
never returns more rows than the requested limit).  The backend
`execute_query` implementation is not under src/. -/
def executeRows (tableRows : List Row) (limit : Option Nat) (offset : Nat) : List Row :=
  (tableRows.drop offset).take (effectiveLimit limit)

/-- Modelled from the spec: the batch the Cursor Pager fetches for one page —
pageSize + 1 rows from the pagination position, the extra row only probing
whether more pages exist (§4.7).  The backend `get_table_data` implementation
is not under src/. -/
def fetchBatch (table : List Row) (offset pageSize : Nat) : List Row :=
  (table.drop offset).take (pageSize + 1)

/-- Modelled from the spec: the `get_table_data` command's result (§4.7, §6):
the fetched batch minus the probe row, the total count from a separate count
query, and hasMore false exactly when the fetched batch size is at most the
page size.  The backend implementation is not under src/. -/
def getTableData (table : List Row) (cols : List ColumnInfo) (offset pageSize : Nat) :
    TableDataResult :=
  let batch := fetchBatch table offset pageSize
  { columns := cols
    rows := batch.take pageSize
    totalCount := table.length
    hasMore := decide (pageSize < batch.length) }

/-- The non-secret profile fields the Connection Registry stores (§3
ConnectionProfile, minus the id used as the key). -/
structure ProfileFields where
  name : String
  type : DatabaseType
  host : String
  port : Nat
  database : String
  username : String
deriving DecidableEq

/-- The profile metadata of create-connection parameters (the password goes
to the Vault, never to the Registry). -/
def profileOfParams (p : CreateConnectionParams) : ProfileFields :=
  { name := p.name, type := p.type, host := p.host, port := p.port,
    database := p.database, username := p.username }

/-- Modelled from the spec: backend state of the Connection Registry and the
Credential Vault (§4.1, §4.2): profiles are non-secret metadata keyed by id;
the vault maps a connection id to its secret; `nextId` drives fresh id
generation.  The Rust implementations are not under src/. -/
structure Backend where
  profiles : List (String × ProfileFields)
  vault : List (String × String)
  nextId : Nat
deriving DecidableEq

/-- The fresh profile id the backend mints for a create call. -/
def freshId (b : Backend) : String := "conn-" ++ toString b.nextId

/-- Modelled from the spec: the `create_connection` command (§6 row
createConnection, §4.2 create(profile) -> id, §4.1 store(profileId, secret)):
registers a new profile under a fresh id and stores the password under that
fresh id.  The Rust implementation is not under src/. -/
def backendCreateConnection (b : Backend) (p : CreateConnectionParams) : String × Backend :=
  let id := freshId b
  (id,
   { profiles := b.profiles ++ [(id, profileOfParams p)]
     vault := b.vault ++ [(id, p.password)]
     nextId := b.nextId + 1 })

/-- Modelled from the spec: the Vault's `retrieve(profileId) -> secret |
NotFound` (§4.1), NotFound rendered as `none`. -/
def vaultRetrieve (b : Backend) (id : String) : Option String :=
  (b.vault.find? (fun e => e.1 == id)).map (fun e => e.2)

/-- Modelled from the spec: the `delete_connection` command (§4.2: on delete,
triggers Vault deletion for that id; §8 scenario: deleting connection P
removes its Vault secret such that a subsequent retrieve(P) returns
NotFound).  The Rust implementation is not under src/. -/
def backendDeleteConnection (b : Backend) (id : String) : Backend :=
  { b with
    profiles := b.profiles.filter (fun e => e.1 != id)
    vault := b.vault.filter (fun e => e.1 != id) }

/-! ## Connection dialog handlers (`components/connections/connection-dialog.tsx`) -/

/-- The `FormData` interface of the dialog (the port is held as text). -/
structure FormData where
  name : String
  type : DatabaseType
  host : String
  port : String
  database : String
  username : String
  password : String
deriving DecidableEq

/-- `parseInt(s, 10)` on the decimal digit strings the dialog handles. -/
def parsePort (s : String) : Nat :=
  s.data.foldl (fun n c => n * 10 + (c.toNat - 48)) 0

/-- The `CreateConnectionParams` the dialog builds by spreading the form and
parsing the port. -/
def formToCreateParams (f : FormData) : CreateConnectionParams :=
  { name := f.name, type := f.type, host := f.host, port := parsePort f.port,
    database := f.database, username := f.username, password := f.password }

/-- The edit branch of `handleSave`: updates the store entry in place via
`updateConnection` (the update object has no id field), and when a password
was typed calls `api.createConnection` with the form data — the modelled
backend effect of that call is `backendCreateConnection`. -/
def handleSaveEdit (editId : String) (f : FormData) (store : ConnectionStore)
    (b : Backend) : ConnectionStore × Backend :=
  let store1 := updateConnection editId
    { name := some f.name, type := some f.type, host := some f.host,
      port := some (parsePort f.port), database := some f.database,
      username := some f.username } store
  let b1 := if f.password = "" then b
            else (backendCreateConnection b (formToCreateParams f)).2
  (store1, b1)

/-- The `{success, error?}` object `api.testConnection` resolves with. -/
structure TestOutcome where
  success : Bool
  error : Option String := none
deriving DecidableEq

/-- How the awaited `api.testConnection` call can come back at the catch
boundary of `handleTestConnection`: resolved with a result object, or
rejected; a rejection carries `some msg` when the thrown value is an `Error`
(its message, possibly empty) and `none` otherwise. -/
inductive ApiOutcome where
  | resolved (r : TestOutcome)
  | rejected (errMessage : Option String)
deriving DecidableEq

/-- The dialog's `testResult` state value. -/
structure TestResult where
  success : Bool
  message : String
deriving DecidableEq

/-- The dialog state `handleTestConnection` leaves behind. -/
structure TestHandlerState where
  testing : Bool
  testResult : Option TestResult
deriving DecidableEq

/-- `handleTestConnection` from the connection dialog: the final values of
`testing` and `testResult` after the try/catch/finally completes, as a
function of how the API call came back. -/
def handleTestConnection (outcome : ApiOutcome) : TestHandlerState :=
  match outcome with
  | .resolved r =>
    { testing := false
      testResult := some
        { success := r.success
          message := if r.success then "Connection successful!"
                     else jsOrOpt r.error "Connection failed" } }
  | .rejected m =>
    { testing := false
      testResult := some { success := false, message := m.getD "Connection test failed" } }

/-- The error string an outcome reports: the result object's `error` field on
resolution, the thrown `Error`'s message on rejection. -/
def reportedError : ApiOutcome → Option String
  | .resolved r => r.error
  | .rejected m => m

/-! ## Concrete material for counterexamples and witnesses -/

/-- A sample connection. -/
def connA : Connection :=
  { id := "c1", name := "db", type := .postgres, host := "localhost",
    port := 5432, database := "app", username := "u", isConnected := true,
    lastConnected := some "2026-01-01" }

/-- The same connection with no last-connected timestamp. -/
def connB : Connection := { connA with lastConnected := none }

/-- A store holding exactly one connection and nothing else. -/
def storeWith (c : Connection) : ConnectionStore :=
  { connections := [c], activeConnectionId := none, queryTabs := [],
    activeTabId := none, tables := [], sidebarWidth := 260, theme := .dark }

/-! ## The claims -/

/-- C1, counterexample: the claim says each persisted entry is restricted to
id, name, engine type, host, port, database and username (with isConnected
forced to false), but `partialize` spreads the whole connection, so two
connections agreeing on all of those fields and on isConnected, differing
only in `lastConnected`, persist to different data: `lastConnected` is
persisted too. -/
theorem C1_persist_keeps_lastConnected :
    restrictToClaimFields connA = restrictToClaimFields connB ∧
    connA.isConnected = connB.isConnected ∧
    partialize (storeWith connA) ≠ partialize (storeWith connB) := by
  decide

/-- C1 (amended): the persisted projection of the store is exactly the
connection list with each entry's isConnected forced to false (its other
fields — the seven the claim lists and additionally the optional
lastConnected timestamp — kept as they are), plus the sidebar width and the
theme; and the Connection record holds nothing beyond those fields — in
particular no password — since a connection is fully determined by the seven
claimed fields together with isConnected and lastConnected. -/
theorem C1_persisted_projection (s : ConnectionStore) :
    (partialize s).connections = s.connections.map (fun c => { c with isConnected := false }) ∧
    (∀ c ∈ (partialize s).connections, c.isConnected = false) ∧
    (partialize s).sidebarWidth = s.sidebarWidth ∧
    (partialize s).theme = s.theme ∧
    (∀ c d : Connection, restrictToClaimFields c = restrictToClaimFields d →
      c.isConnected = d.isConnected → c.lastConnected = d.lastConnected → c = d) := by
  refine ⟨rfl, ?_, rfl, rfl, ?_⟩
  · intro c hc
    simp only [partialize, List.mem_map] at hc
    obtain ⟨a, _, rfl⟩ := hc
    rfl
  · intro c d h1 h2 h3
    cases c
    cases d
    simp only [restrictToClaimFields, ClaimPersistedConnection.mk.injEq] at h1
    simp_all

/-- C2, counterexample: a destructive statement submitted through the
frontend `executeQuery` command carries no `confirmed` key at all — the
serialized `ExecuteQueryParams` for a `DROP TABLE` statement has no
confirmation flag the backend could receive. -/
theorem C2_no_confirmed_flag :
    "confirmed" ∉ executeQueryKeys
      { connectionId := "c1", sql := "DROP TABLE users", limit := some 100,
        offset := some 0 } := by
  decide

/-- C2 (amended): the `executeQuery` command as declared in the frontend API
accepts only connectionId, sql and the optional limit and offset — every
serialized payload draws its keys from those four and never contains a
`confirmed` key, so the confirmation flag (and with it the
`ConfirmationRequired` refusal protocol) is not expressible at this command
boundary. -/
theorem C2_executeQuery_interface (p : ExecuteQueryParams) :
    "confirmed" ∉ executeQueryKeys p ∧
    ∀ k ∈ executeQueryKeys p,
      k = "connectionId" ∨ k = "sql" ∨ k = "limit" ∨ k = "offset" := by
  constructor
  · rcases p with ⟨cid, sql, l, o⟩
    rcases l with _ | l <;> rcases o with _ | o <;> simp [executeQueryKeys, optionalKey]
  · intro k hk
    rcases p with ⟨cid, sql, l, o⟩
    rcases l with _ | l <;> rcases o with _ | o <;>
      simp [executeQueryKeys, optionalKey] at hk <;> tauto

/-- C4, counterexample: the claim says `getTableData` accepts the pagination
position as either an offset or a cursor, but the serialized
`GetTableDataParams` payload has no `cursor` key — only a numeric offset can
be passed. -/
theorem C4_no_cursor_field :
    "cursor" ∉ getTableDataKeys
      { connectionId := "c1", tableName := "users", schema := some "public",
        limit := some 50, offset := some 0 } := by
  decide

/-- C4 (amended): the `getTableData` command accepts the pagination position
as a numeric offset only (its payload keys are drawn from connectionId,
tableName, schema, limit and offset, with no cursor key), returns
{columns, rows, totalCount, hasMore}, and for every fetched page hasMore is
false exactly when the fetched batch size is at most the page size —
equivalently, hasMore holds exactly when rows remain beyond the returned
page. -/
theorem C4_getTableData_pagination (p : GetTableDataParams) (table : List Row)
    (cols : List ColumnInfo) (offset pageSize : Nat) :
    "cursor" ∉ getTableDataKeys p ∧
    (∀ k ∈ getTableDataKeys p,
      k = "connectionId" ∨ k = "tableName" ∨ k = "schema" ∨ k = "limit" ∨ k = "offset") ∧
    ((getTableData table cols offset pageSize).hasMore = false ↔
      (fetchBatch table offset pageSize).length ≤ pageSize) ∧
    ((getTableData table cols offset pageSize).hasMore = true ↔
      offset + pageSize < table.length) ∧
    (getTableData table cols offset pageSize).rows.length ≤ pageSize ∧
    (getTableData table cols offset pageSize).totalCount = table.length := by
  refine ⟨?_, ?_, ?_, ?_, ?_, rfl⟩
  · rcases p with ⟨a, b, sc, l, o⟩
    rcases sc with _ | sc <;> rcases l with _ | l <;> rcases o with _ | o <;>
      simp [getTableDataKeys, optionalKey]
  · intro k hk
    rcases p with ⟨a, b, sc, l, o⟩
    rcases sc with _ | sc <;> rcases l with _ | l <;> rcases o with _ | o <;>
      simp [getTableDataKeys, optionalKey] at hk <;> tauto
  · simp [getTableData, Nat.not_lt]
  · simp only [getTableData, fetchBatch, decide_eq_true_eq, List.length_take,
      List.length_drop]
    omega
  · simp only [getTableData, List.length_take]
    exact Nat.min_le_left _ _

/-- C5: whichever way the `testConnection` call comes back — resolved with a
{success, error?} object or rejected with a thrown value — the dialog's test
handler terminates with testing set to false and a testResult present whose
success flag matches the outcome and whose message, on failure, is the
reported error or one of the two fallback strings. -/
theorem C5_testConnection_total (outcome : ApiOutcome) :
    (handleTestConnection outcome).testing = false ∧
    ∃ tr, (handleTestConnection outcome).testResult = some tr ∧
      (∀ r, outcome = .resolved r → tr.success = r.success) ∧
      (∀ m, outcome = .rejected m → tr.success = false) ∧
      (tr.success = false →
        some tr.message = reportedError outcome ∨
        tr.message = "Connection failed" ∨
        tr.message = "Connection test failed") := by
  rcases outcome with r | m
  · refine ⟨rfl, _, rfl, ?_, ?_, ?_⟩
    · intro r' hr
      cases hr
      rfl
    · intro m hm
      cases hm
    · intro hfail
      rcases r with ⟨success, error⟩
      cases success
      · rcases error with _ | e
        · right; left; rfl
        · by_cases he : e = ""
          · subst he; right; left; rfl
          · left; simp [handleTestConnection, jsOrOpt, jsOrString, reportedError, he]
      · simp [handleTestConnection] at hfail
  · refine ⟨rfl, _, rfl, ?_, ?_, ?_⟩
    · intro r' hr
      cases hr
    · intro m' hm
      cases hm
      rfl
    · intro _
      rcases m with _ | msg
      · right; right; rfl
      · left; rfl

/-- C3: every query request through the executor comes back with at most the
requested row limit of rows, the default bound 100 applies when the caller
omits a limit, and whenever the query editor's run path submits a request at
all it submits a limit of exactly 100 rows (offset 0). -/
theorem C3_executeQuery_row_limit (i : RunQueryInput) (p : ExecuteQueryParams)
    (table : List Row) (h : handleRunQueryParams i = some p) :
    p.limit = some 100 ∧ p.offset = some 0 ∧
    (executeRows table p.limit (p.offset.getD 0)).length ≤ 100 ∧
    ∀ (limit : Option Nat) (offset : Nat),
      (executeRows table limit offset).length ≤ effectiveLimit limit := by
  have hgen : ∀ (limit : Option Nat) (offset : Nat),
      (executeRows table limit offset).length ≤ effectiveLimit limit := by
    intro limit offset
    simp only [executeRows, List.length_take]
    exact Nat.min_le_left _ _
  have hp : p.limit = some 100 ∧ p.offset = some 0 := by
    rcases i with ⟨t, c, r, e⟩
    rcases t with _ | t
    · simp [handleRunQueryParams] at h
    rcases c with _ | c
    · simp [handleRunQueryParams] at h
    simp only [handleRunQueryParams] at h
    split at h
    · simp at h
    split at h
    · simp at h
    injection h with h
    subst h
    exact ⟨rfl, rfl⟩
  exact ⟨hp.1, hp.2,
    by simpa [hp.1, effectiveLimit] using hgen p.limit (p.offset.getD 0), hgen⟩

/-- A sample open query tab. -/
def tabEx : QueryTab :=
  { id := "t1", connectionId := "c1", title := "Query 1", sql := "",
    results := none, isRunning := false }

/-- A run-query input with an active tab and connection, not already running,
holding the editor text SELECT 1. -/
def runInputEx : RunQueryInput :=
  { activeTab := some tabEx, activeConnection := some connA, isRunning := false,
    editorValue := some "SELECT 1" }

/-- The parameters the editor submits for `runInputEx`. -/
def runParamsEx : ExecuteQueryParams :=
  { connectionId := "c1", sql := "SELECT 1", limit := some 100, offset := some 0 }

/-- Witness for C3: at the concrete editor input `runInputEx` the handler
does submit parameters, those parameters carry limit 100 and offset 0, and
the executor's row bound holds for them. -/
theorem C3_executeQuery_row_limit_witness :
    handleRunQueryParams runInputEx = some runParamsEx ∧
    (runParamsEx.limit = some 100 ∧ runParamsEx.offset = some 0 ∧
     (executeRows [] runParamsEx.limit (runParamsEx.offset.getD 0)).length ≤ 100 ∧
     ∀ (limit : Option Nat) (offset : Nat),
       (executeRows ([] : List Row) limit offset).length ≤ effectiveLimit limit) :=
  ⟨by decide, C3_executeQuery_row_limit runInputEx runParamsEx [] (by decide)⟩

/-- The stored connection being edited: id conn-0 under its old name. -/
def editedConn : Connection :=
  { id := "conn-0", name := "old-name", type := .postgres, host := "localhost",
    port := 5432, database := "app", username := "u", isConnected := false,
    lastConnected := none }

/-- The dialog form for the edit: same profile fields, new name, and a new
non-empty password typed in. -/
def editForm : FormData :=
  { name := "db", type := .postgres, host := "localhost", port := "5432",
    database := "app", username := "u", password := "newpw" }

/-- The backend before the edit: profile conn-0 registered, its stored secret
the old password. -/
def backend0 : Backend :=
  { profiles := [("conn-0", profileOfParams (formToCreateParams editForm))],
    vault := [("conn-0", "oldpw")], nextId := 1 }

/-- C6 (code bug evidence): saving an edit of connection conn-0 with the new
non-empty password newpw leaves the vault secret of conn-0 at oldpw and adds
a second backend profile under the fresh id conn-1 carrying the new secret:
the save handler calls create_connection instead of updating the keychain
entry of the profile being edited, against its own source comment (If
password changed, update in keychain).  The store-side part of the claim does
hold: the single store entry keeps id conn-0 with the edited name applied in
place. -/
theorem C6_edit_password_not_updated :
    vaultRetrieve (handleSaveEdit "conn-0" editForm (storeWith editedConn) backend0).2
        "conn-0" = some "oldpw" ∧
    vaultRetrieve (handleSaveEdit "conn-0" editForm (storeWith editedConn) backend0).2
        "conn-1" = some "newpw" ∧
    (handleSaveEdit "conn-0" editForm (storeWith editedConn) backend0).2.profiles.length
        = backend0.profiles.length + 1 ∧
    (handleSaveEdit "conn-0" editForm (storeWith editedConn) backend0).1.connections
        = [{ editedConn with name := "db" }] := by
  decide

/-- A lookup by key finds nothing in an association list filtered to exclude
that key. -/
theorem find_filter_key_eq_none (l : List (String × String)) (id : String) :
    (l.filter (fun e => e.1 != id)).find? (fun e => e.1 == id) = none := by
  induction l with
  | nil => rfl
  | cons a t ih =>
    rcases a with ⟨k, val⟩
    by_cases hk : k = id
    · simp [List.filter_cons, hk, ih]
    · simp [List.filter_cons, List.find?_cons, hk, ih]

/-- C7: deleting a connection removes it entirely — it no longer appears in
the store's connection list (every other connection stays), the vault secret
for that id is gone so a retrieve comes back NotFound, every query tab of
that connection is removed (tabs of other connections stay), and the active
connection id becomes null exactly when it pointed at the deleted
connection. -/
theorem C7_delete_connection (id : String) (s : ConnectionStore) (b : Backend) :
    (∀ c ∈ (removeConnection id s).connections, c.id ≠ id) ∧
    (∀ c ∈ s.connections, c.id ≠ id → c ∈ (removeConnection id s).connections) ∧
    vaultRetrieve (backendDeleteConnection b id) id = none ∧
    (∀ t ∈ (removeConnection id s).queryTabs, t.connectionId ≠ id) ∧
    (∀ t ∈ s.queryTabs, t.connectionId ≠ id → t ∈ (removeConnection id s).queryTabs) ∧
    (s.activeConnectionId = some id → (removeConnection id s).activeConnectionId = none) ∧
    (s.activeConnectionId ≠ some id →
      (removeConnection id s).activeConnectionId = s.activeConnectionId) := by
  refine ⟨?_, ?_, ?_, ?_, ?_, ?_, ?_⟩
  · intro c hc
    simp only [removeConnection, List.mem_filter, bne_iff_ne] at hc
    exact hc.2
  · intro c hc hne
    simp only [removeConnection, List.mem_filter, bne_iff_ne]
    exact ⟨hc, hne⟩
  · simp only [backendDeleteConnection, vaultRetrieve, find_filter_key_eq_none]
    rfl
  · intro t ht
    simp only [removeConnection, List.mem_filter, bne_iff_ne] at ht
    exact ht.2
  · intro t ht hne
    simp only [removeConnection, List.mem_filter, bne_iff_ne]
    exact ⟨ht, hne⟩
  · intro hact
    simp [removeConnection, hact]
  · intro hact
    simp [removeConnection, hact]

/-- C8: updating connection X (respectively query tab X) leaves every
connection (tab) with a different id in the store, keeps the list length, and
leaves every other store field — the other list, activeConnectionId,
activeTabId, tables, sidebarWidth and theme — unchanged. -/
theorem C8_update_frame (x : String) (u : ConnectionUpdates) (v : QueryTabUpdates)
    (s : ConnectionStore) :
    (∀ c ∈ s.connections, c.id ≠ x → c ∈ (updateConnection x u s).connections) ∧
    (updateConnection x u s).connections.length = s.connections.length ∧
    (updateConnection x u s).activeConnectionId = s.activeConnectionId ∧
    (updateConnection x u s).queryTabs = s.queryTabs ∧
    (updateConnection x u s).activeTabId = s.activeTabId ∧
    (updateConnection x u s).tables = s.tables ∧
    (updateConnection x u s).sidebarWidth = s.sidebarWidth ∧
    (updateConnection x u s).theme = s.theme ∧
    (∀ t ∈ s.queryTabs, t.id ≠ x → t ∈ (updateQueryTab x v s).queryTabs) ∧
    (updateQueryTab x v s).connections = s.connections ∧
    (updateQueryTab x v s).activeConnectionId = s.activeConnectionId ∧
    (updateQueryTab x v s).activeTabId = s.activeTabId ∧
    (updateQueryTab x v s).tables = s.tables ∧
    (updateQueryTab x v s).sidebarWidth = s.sidebarWidth ∧
    (updateQueryTab x v s).theme = s.theme := by
  refine ⟨?_, ?_, rfl, rfl, rfl, rfl, rfl, rfl, ?_, rfl, rfl, rfl, rfl, rfl, rfl⟩
  · intro c hc hne
    simp only [updateConnection]
    exact List.mem_map.mpr ⟨c, hc, by simp [hne]⟩
  · simp [updateConnection]
  · intro t ht hne
    simp only [updateQueryTab]
    exact List.mem_map.mpr ⟨t, ht, by simp [hne]⟩

/-- C9: `addQueryTab` appends exactly one new tab, titled Query N where N is
one plus the number of existing tabs of that connection, with empty sql, no
results and isRunning false; the new tab becomes the active tab and every
other store field is unchanged. -/
theorem C9_addQueryTab_appends (cid newId : String) (s : ConnectionStore) :
    (addQueryTab cid newId s).queryTabs = s.queryTabs ++
      [{ id := newId, connectionId := cid,
         title := "Query " ++
           toString ((s.queryTabs.filter (fun t => t.connectionId == cid)).length + 1),
         sql := "", results := none, isRunning := false }] ∧
    (addQueryTab cid newId s).queryTabs.length = s.queryTabs.length + 1 ∧
    (addQueryTab cid newId s).activeTabId = some newId ∧
    (addQueryTab cid newId s).connections = s.connections ∧
    (addQueryTab cid newId s).activeConnectionId = s.activeConnectionId ∧
    (addQueryTab cid newId s).tables = s.tables ∧
    (addQueryTab cid newId s).sidebarWidth = s.sidebarWidth ∧
    (addQueryTab cid newId s).theme = s.theme := by
  refine ⟨rfl, ?_, rfl, rfl, rfl, rfl, rfl, rfl⟩
  simp [addQueryTab]

/-- C10: `removeQueryTab` removes exactly the tab with the given id (a
pre-existing tab survives iff its id differs, and no tab appears from
nowhere); when the removed tab was the active one the last remaining tab — or
null when none remains — becomes active, otherwise activeTabId is unchanged;
every other store field is unchanged. -/
theorem C10_removeQueryTab (id : String) (s : ConnectionStore) :
    (∀ t ∈ s.queryTabs, (t ∈ (removeQueryTab id s).queryTabs ↔ t.id ≠ id)) ∧
    (∀ t ∈ (removeQueryTab id s).queryTabs, t ∈ s.queryTabs) ∧
    (s.activeTabId = some id →
      (removeQueryTab id s).activeTabId =
        ((removeQueryTab id s).queryTabs.getLast?).map QueryTab.id) ∧
    (s.activeTabId ≠ some id → (removeQueryTab id s).activeTabId = s.activeTabId) ∧
    (removeQueryTab id s).connections = s.connections ∧
    (removeQueryTab id s).activeConnectionId = s.activeConnectionId ∧
    (removeQueryTab id s).tables = s.tables ∧
    (removeQueryTab id s).sidebarWidth = s.sidebarWidth ∧
    (removeQueryTab id s).theme = s.theme := by
  refine ⟨?_, ?_, ?_, ?_, rfl, rfl, rfl, rfl, rfl⟩
  · intro t ht
    simp [removeQueryTab, List.mem_filter, bne_iff_ne, ht]
  · intro t ht
    simp only [removeQueryTab, List.mem_filter, bne_iff_ne] at ht
    exact ht.1
  · intro hact
    simp [removeQueryTab, hact]
  · intro hact
    simp [removeQueryTab, hact]

end MesaGrid
